import Mathlib

/-!
Verification of the weather measurement pipeline
(weather_data_processor.py together with data_ingestion.py).

The embedding follows the Python source closely:

* a compiled regular expression is modelled by its observable search
  behaviour: searching a message either fails (no match anywhere in the
  message) or yields the tuple of capture groups of the first match,
  where an unmatched (absent) group is none;
* Python float values are modelled as rationals, and the builtin
  float(str) conversion is modelled by a decimal parser that accepts an
  optional sign, digits and an optional fractional part, and fails
  (ValueError) on anything else;
* exceptions are modelled with Except over an explicit error type;
* the pandas dataframe held in weather_df is modelled as an optional
  list of rows, none standing for the initial None.
-/

attribute [local semireducible] Rat.add Rat.mul Rat.inv

namespace Weather

/-- Python exceptions that the embedded code can raise: StopIteration
from an exhausted generator inside next(...), ValueError from float(...)
or from unpacking the wrong number of values, and the pandas
EmptyDataError re-raised by the loader. -/
inductive PyError
  | stopIteration
  | valueError
  | emptyDataError
deriving DecidableEq

/-- A compiled regular expression, modelled extensionally: search msg is
none when re.search finds no match anywhere in msg, and some gs when it
matches, gs being the list match.groups() of the capture groups of the
first match, with an absent group rendered as none. -/
structure Pattern where
  search : String → Option (List (Option String))

/-- One row of the weather dataframe: the Weather_station_ID and Message
columns from the input, and the Measurement and Value columns that
process_messages fills in (initially absent). -/
structure Row where
  station : String
  message : String
  measurement : Option String := none
  value : Option ℚ := none
deriving DecidableEq

instance {ε α : Type} [DecidableEq ε] [DecidableEq α] : DecidableEq (Except ε α) := fun x y =>
  match x, y with
  | Except.ok a, Except.ok b =>
    if h : a = b then isTrue (by rw [h]) else isFalse (fun hc => h (Except.ok.inj hc))
  | Except.error e, Except.error f =>
    if h : e = f then isTrue (by rw [h]) else isFalse (fun hc => h (Except.error.inj hc))
  | Except.ok _, Except.error _ => isFalse (fun hc => Except.noConfusion hc)
  | Except.error _, Except.ok _ => isFalse (fun hc => Except.noConfusion hc)

/-- Whitespace test used by the float conversion (Python strips blanks,
tabs and line breaks around the literal). -/
def isSpaceChar (c : Char) : Bool :=
  decide (c = ' ' ∨ c = '\t' ∨ c = '\n' ∨ c = '\r')

/-- Strip whitespace from both ends of a character list. -/
def trimChars (cs : List Char) : List Char :=
  ((cs.dropWhile isSpaceChar).reverse.dropWhile isSpaceChar).reverse

/-- Decimal digit test. -/
def isDigitChar (c : Char) : Bool :=
  decide ('0' ≤ c ∧ c ≤ '9')

/-- Numeric value of a list of decimal digit characters. -/
def natOfDigits (cs : List Char) : ℕ :=
  cs.foldl (fun a c => 10 * a + (c.toNat - 48)) 0

/-- Split a character list at the first dot, if any. -/
def splitDot : List Char → List Char × Option (List Char)
  | [] => ([], none)
  | c :: rest =>
    if c = '.' then ([], some rest)
    else
      let p := splitDot rest
      (c :: p.1, p.2)

/-- Unsigned decimal forms accepted by Python float: digits, digits dot,
digits dot digits, or dot digits; anything else is rejected. -/
def parseUnsignedDec (cs : List Char) : Option ℚ :=
  match splitDot cs with
  | (ip, none) =>
    if ip ≠ [] ∧ ip.all isDigitChar then some (natOfDigits ip : ℚ) else none
  | (ip, some fp) =>
    if (ip ≠ [] ∨ fp ≠ []) ∧ ip.all isDigitChar ∧ fp.all isDigitChar then
      some ((natOfDigits ip : ℚ) + (natOfDigits fp : ℚ) / (10 : ℚ) ^ fp.length)
    else none

/-- Model of the Python builtin float(s) on a string: surrounding
whitespace is stripped, an optional sign is honoured, and the decimal
forms of parseUnsignedDec are accepted; none models a ValueError. -/
def float_of_string (s : String) : Option ℚ :=
  match trimChars s.toList with
  | [] => none
  | c :: rest =>
    if c = '+' then parseUnsignedDec rest
    else if c = '-' then (parseUnsignedDec rest).map Neg.neg
    else parseUnsignedDec (c :: rest)

/-- Model of next((x for x in groups if x is not None)) without a
default: the first non-absent element, if any. -/
def firstNonNone : List (Option String) → Option String
  | [] => none
  | some s :: _ => some s
  | none :: rest => firstNonNone rest

/-- WeatherDataProcessor.extract_measurement: iterate the patterns in
registration order; on the first pattern whose search matches, take the
first non-absent capture group (next raises StopIteration when there is
none) and convert it with float (ValueError when not numeric); when no
pattern matches return (None, None). -/
def extract_measurement (patterns : List (String × Pattern)) (message : String) :
    Except PyError (Option String × Option ℚ) :=
  match patterns with
  | [] => Except.ok (none, none)
  | (key, pat) :: rest =>
    match pat.search message with
    | some m =>
      match firstNonNone m with
      | none => Except.error PyError.stopIteration
      | some s =>
        match float_of_string s with
        | none => Except.error PyError.valueError
        | some v => Except.ok (some key, some v)
    | none => extract_measurement rest message

/-- The series self.weather_df[Message].apply(self.extract_measurement):
extraction is applied row by row in order, and the first exception
raised aborts the whole application. -/
def mapExtract (patterns : List (String × Pattern)) :
    List Row → Except PyError (List (Option String × Option ℚ))
  | [] => Except.ok []
  | r :: rest =>
    match extract_measurement patterns r.message with
    | Except.error e => Except.error e
    | Except.ok p =>
      match mapExtract patterns rest with
      | Except.error e => Except.error e
      | Except.ok ps => Except.ok (p :: ps)

/-- The tuple assignment a, b = zip(star result): transposes a list of
pairs into the pair of column lists; on an empty list zip() yields
nothing and unpacking into two targets raises a ValueError. -/
def unzip_unpack2 (l : List (Option String × Option ℚ)) :
    Except PyError (List (Option String) × List (Option ℚ)) :=
  match l with
  | [] => Except.error PyError.valueError
  | _ => Except.ok (l.map Prod.fst, l.map Prod.snd)

/-- Column assignment of the Measurement and Value columns: each row is
updated in place with its extraction result, positionally. -/
def setColumns : List Row → List (Option String) → List (Option ℚ) → List Row
  | r :: rs, m :: ms, v :: vs =>
    { r with measurement := m, value := v } :: setColumns rs ms vs
  | _, _, _ => []

/-- WeatherDataProcessor.process_messages: when weather_df is None it
only logs a warning and returns it unchanged; otherwise it applies
extract_measurement over the Message column, unpacks the results into
the Measurement and Value columns and returns the updated dataframe.
Exceptions raised along the way propagate to the caller. -/
def process_messages (patterns : List (String × Pattern)) :
    Option (List Row) → Except PyError (Option (List Row))
  | none => Except.ok none
  | some rows =>
    match mapExtract patterns rows with
    | Except.error e => Except.error e
    | Except.ok result =>
      match unzip_unpack2 result with
      | Except.error e => Except.error e
      | Except.ok mv => Except.ok (some (setColumns rows mv.1 mv.2))

/-- Group keys of groupby([Weather_station_ID, Measurement]): the
distinct (station, kind) pairs of rows whose Measurement is non-null
(pandas drops null group keys). -/
def groupKeys (rows : List Row) : List (String × String) :=
  (rows.filterMap fun r => r.measurement.map fun k => (r.station, k)).dedup

/-- Value column restricted to one group: the non-null values of rows
with the given station and measurement kind. -/
def groupVals (rows : List Row) (st kind : String) : List ℚ :=
  rows.filterMap fun r =>
    if r.station = st ∧ r.measurement = some kind then r.value else none

/-- The mean cell produced for one group key, absent when the group has
no non-null value (a NaN cell after unstack, observably absent). -/
def meanEntry (rows : List Row) (p : String × String) :
    Option ((String × String) × ℚ) :=
  let vs := groupVals rows p.1 p.2
  if vs = [] then none else some (p, vs.sum / (vs.length : ℚ))

/-- WeatherDataProcessor.calculate_means: when weather_df is None it
returns None; otherwise groupby([Weather_station_ID, Measurement]) on
the Value column followed by mean() and unstack(), modelled as the
finite table of per-group means keyed by (station, kind). -/
def calculate_means : Option (List Row) → Option (List ((String × String) × ℚ))
  | none => none
  | some rows => some ((groupKeys rows).filterMap (meanEntry rows))

/-- Cell lookup in the unstacked table: the mean at (station, kind), or
absent when no such cell exists. -/
def cell (tbl : List ((String × String) × ℚ)) (st kind : String) : Option ℚ :=
  (tbl.find? fun e => decide (e.1 = (st, kind))).map Prod.snd

/-- data_ingestion.read_from_web_CSV: pd.read_csv fetches the CSV; the
function returns the dataframe on success and re-raises every exception
(including pandas EmptyDataError) unchanged after logging. The fetch
outcome is the argument, the function only passes it through. -/
def read_from_web_CSV (fetch : Except PyError (List Row)) :
    Except PyError (List Row) :=
  match fetch with
  | Except.ok df => Except.ok df
  | Except.error e => Except.error e

/-- Configuration dictionary consumed by the constructor. -/
structure ConfigParams where
  weather_csv_path : String
  regex_patterns : List (String × Pattern)

/-- The WeatherDataProcessor object state: the stored path, the stored
patterns and the mutable weather_df. -/
structure WeatherDataProcessor where
  weather_station_data : String
  patterns : List (String × Pattern)
  weather_df : Option (List Row)

/-- WeatherDataProcessor.__init__: stores the path and the patterns from
config_params verbatim and sets weather_df to None; it performs no
further checks (logging setup has no observable effect here). -/
def WeatherDataProcessor.init (config_params : ConfigParams) : WeatherDataProcessor :=
  { weather_station_data := config_params.weather_csv_path
  , patterns := config_params.regex_patterns
  , weather_df := none }

/-- WeatherDataProcessor.process: weather_station_mapping loads the
dataframe through read_from_web_CSV and assigns it to weather_df, then
process_messages runs on it; any exception propagates. -/
def process (patterns : List (String × Pattern))
    (fetch : Except PyError (List Row)) : Except PyError (Option (List Row)) :=
  match read_from_web_CSV fetch with
  | Except.error e => Except.error e
  | Except.ok df => process_messages patterns (some df)

/-!
Concrete registries and datasets used to instantiate the theorems. The
patterns are written directly as their search behaviour on the finitely
many messages of the demo datasets; tempPattern and humPattern both
match the message "Temperature: 23.5C" so that pattern precedence is
observable, and oopsPattern captures text that float cannot parse.
-/

/-- Temperature pattern of the demo registry. -/
def tempPattern : Pattern :=
  ⟨fun m => if m = "Temperature: 23.5C" then some [some "23.5"]
            else if m = "Temperature: -3.5C" then some [some "-3.5"]
            else none⟩

/-- Humidity pattern of the demo registry; it also matches the
temperature message (capturing 999) so that first-match precedence is
observable. -/
def humPattern : Pattern :=
  ⟨fun m => if m = "Humidity: 40" then some [some "40"]
            else if m = "Temperature: 23.5C" then some [some "999"]
            else none⟩

/-- A pattern matching none of the demo messages except a wind report. -/
def windPattern : Pattern :=
  ⟨fun m => if m = "Wind: 7" then some [some "7"] else none⟩

/-- A pattern whose single capture group holds non-numeric text. -/
def oopsPattern : Pattern :=
  ⟨fun m => if m = "Temperature: oopsC" then some [some "oops"] else none⟩

/-- A pattern with zero capture groups: on a match, match.groups() is
the empty tuple. -/
def zeroGroupPat : Pattern :=
  ⟨fun m => if m = "crash" then some [] else none⟩

/-- Demo registry with two well-formed patterns. -/
def demoPats : List (String × Pattern) :=
  [("temp", tempPattern), ("hum", humPattern)]

/-- Demo registry containing a pattern whose capture is non-numeric. -/
def demoBadPats : List (String × Pattern) :=
  [("temp", tempPattern), ("bad", oopsPattern), ("hum", humPattern)]

/-- A record whose message the temp pattern matches. -/
def rowOk1 : Row := { station := "S1", message := "Temperature: 23.5C" }

/-- A record whose matching capture is not numeric. -/
def rowBad : Row := { station := "S1", message := "Temperature: oopsC" }

/-- A record no pattern matches. -/
def rowNoMatch : Row := { station := "S3", message := "no data" }

/-- A record whose message the hum pattern matches. -/
def rowOk2 : Row := { station := "S2", message := "Humidity: 40" }

/-- Demo input dataset: a matched, an unmatched and another matched
record. -/
def wRows : List Row := [rowOk1, rowNoMatch, rowOk2]

/-- The annotated dataset process_messages produces from wRows. -/
def wAnnotated : List Row :=
  [ { station := "S1", message := "Temperature: 23.5C"
    , measurement := some "temp", value := some ((47 : ℚ)/2) }
  , { station := "S3", message := "no data" }
  , { station := "S2", message := "Humidity: 40"
    , measurement := some "hum", value := some (40 : ℚ) } ]

/-- The summary table calculate_means produces from wAnnotated. -/
def wTbl : List ((String × String) × ℚ) :=
  [(("S1", "temp"), (47 : ℚ)/2), (("S2", "hum"), (40 : ℚ))]

/-- Annotated rows of the aggregation scenario: S1 temp 20 and 30,
S2 temp 10. -/
def aggRows : List Row :=
  [ { station := "S1", message := "", measurement := some "temp", value := some (20 : ℚ) }
  , { station := "S1", message := "", measurement := some "temp", value := some (30 : ℚ) }
  , { station := "S2", message := "", measurement := some "temp", value := some (10 : ℚ) } ]

/-- Summary table of the aggregation scenario. -/
def aggTbl : List ((String × String) × ℚ) :=
  [(("S1", "temp"), (25 : ℚ)), (("S2", "temp"), (10 : ℚ))]

/-- A configuration whose registry holds a pattern with zero capture
groups. -/
def badConfig : ConfigParams :=
  { weather_csv_path := "https://example.com/weather.csv"
  , regex_patterns := [("temp", zeroGroupPat)] }

/-- Patterns that do not match the message are skipped by the
extraction loop. -/
theorem extract_skip (pre patterns : List (String × Pattern)) (msg : String)
    (hpre : ∀ q ∈ pre, q.2.search msg = none) :
    extract_measurement (pre ++ patterns) msg = extract_measurement patterns msg := by
  induction pre with
  | nil => rfl
  | cons q rest ih =>
    have hq : q.2.search msg = none := hpre q (List.mem_cons_self q rest)
    have hrest : ∀ r ∈ rest, r.2.search msg = none :=
      fun r hr => hpre r (List.mem_cons_of_mem q hr)
    cases q with
    | mk key pat =>
      simp only [List.cons_append, extract_measurement]
      rw [hq]
      exact ih hrest

/-- When every capture group is absent, the generator inside next is
exhausted. -/
theorem firstNonNone_eq_none (gs : List (Option String)) (h : ∀ x ∈ gs, x = none) :
    firstNonNone gs = none := by
  induction gs with
  | nil => rfl
  | cons x rest ih =>
    cases x with
    | some s =>
      have := h (some s) (List.mem_cons_self _ _)
      exact absurd this (by simp)
    | none => exact ih (fun y hy => h y (List.mem_cons_of_mem _ hy))

/-- The row-wise application raises the extraction error of the first
failing row when all earlier rows extract cleanly. -/
theorem mapExtract_append_error (patterns : List (String × Pattern)) (pre : List Row)
    (r : Row) (post : List Row) (e : PyError)
    (hpre : ∀ q ∈ pre, ∃ y, extract_measurement patterns q.message = Except.ok y)
    (hr : extract_measurement patterns r.message = Except.error e) :
    mapExtract patterns (pre ++ r :: post) = Except.error e := by
  induction pre with
  | nil => simp only [List.nil_append, mapExtract, hr]
  | cons q rest ih =>
    obtain ⟨y, hy⟩ := hpre q (List.mem_cons_self _ _)
    have htail := ih (fun a ha => hpre a (List.mem_cons_of_mem _ ha))
    simp only [List.cons_append, mapExtract, hy]
    rw [List.append_eq, htail]

/-- When every row extracts cleanly, the row-wise application succeeds. -/
theorem mapExtract_ok_exists (patterns : List (String × Pattern)) (rows : List Row)
    (hok : ∀ r ∈ rows, ∃ y, extract_measurement patterns r.message = Except.ok y) :
    ∃ es, mapExtract patterns rows = Except.ok es := by
  induction rows with
  | nil => exact ⟨[], rfl⟩
  | cons r rest ih =>
    obtain ⟨y, hy⟩ := hok r (List.mem_cons_self _ _)
    obtain ⟨es, hes⟩ := ih (fun a ha => hok a (List.mem_cons_of_mem _ ha))
    exact ⟨y :: es, by simp only [mapExtract, hy, hes]⟩

/-- A successful row-wise application yields one result per row. -/
theorem mapExtract_length (patterns : List (String × Pattern)) (rows : List Row)
    (es : List (Option String × Option ℚ))
    (h : mapExtract patterns rows = Except.ok es) : es.length = rows.length := by
  induction rows generalizing es with
  | nil =>
    simp only [mapExtract] at h
    cases h
    rfl
  | cons r rest ih =>
    simp only [mapExtract] at h
    cases h1 : extract_measurement patterns r.message with
    | error e => rw [h1] at h; cases h
    | ok p =>
      rw [h1] at h
      cases h2 : mapExtract patterns rest with
      | error e => rw [h2] at h; cases h
      | ok ps =>
        rw [h2] at h
        cases h
        simp [ih ps h2]

/-- Row-wise extraction only reads the Message column. -/
theorem mapExtract_congr (patterns : List (String × Pattern)) (rows rows2 : List Row)
    (h : rows.map Row.message = rows2.map Row.message) :
    mapExtract patterns rows = mapExtract patterns rows2 := by
  induction rows generalizing rows2 with
  | nil =>
    cases rows2 with
    | nil => rfl
    | cons b bs => simp at h
  | cons a as ih =>
    cases rows2 with
    | nil => simp at h
    | cons b bs =>
      simp only [List.map_cons, List.cons.injEq] at h
      simp only [mapExtract, h.1, ih bs h.2]

/-- Assigning the Measurement and Value columns leaves the station
column unchanged. -/
theorem setColumns_station (rows : List Row) (ms : List (Option String))
    (vs : List (Option ℚ)) (h1 : ms.length = rows.length) (h2 : vs.length = rows.length) :
    (setColumns rows ms vs).map Row.station = rows.map Row.station := by
  induction rows generalizing ms vs with
  | nil =>
    cases ms with
    | nil => cases vs with
      | nil => rfl
      | cons v vs => simp at h2
    | cons m ms => simp at h1
  | cons r rs ih =>
    cases ms with
    | nil => simp at h1
    | cons m ms =>
      cases vs with
      | nil => simp at h2
      | cons v vs =>
        simp only [List.length_cons, Nat.succ.injEq] at h1 h2
        simp only [setColumns, List.map_cons, ih ms vs h1 h2]

/-- Assigning the Measurement and Value columns leaves the message
column unchanged. -/
theorem setColumns_message (rows : List Row) (ms : List (Option String))
    (vs : List (Option ℚ)) (h1 : ms.length = rows.length) (h2 : vs.length = rows.length) :
    (setColumns rows ms vs).map Row.message = rows.map Row.message := by
  induction rows generalizing ms vs with
  | nil =>
    cases ms with
    | nil => cases vs with
      | nil => rfl
      | cons v vs => simp at h2
    | cons m ms => simp at h1
  | cons r rs ih =>
    cases ms with
    | nil => simp at h1
    | cons m ms =>
      cases vs with
      | nil => simp at h2
      | cons v vs =>
        simp only [List.length_cons, Nat.succ.injEq] at h1 h2
        simp only [setColumns, List.map_cons, ih ms vs h1 h2]

/-- The assigned Measurement and Value columns are exactly the
extraction results, positionally. -/
theorem setColumns_annots (rows : List Row) (es : List (Option String × Option ℚ))
    (h : es.length = rows.length) :
    (setColumns rows (es.map Prod.fst) (es.map Prod.snd)).map
      (fun r => (r.measurement, r.value)) = es := by
  induction rows generalizing es with
  | nil =>
    cases es with
    | nil => rfl
    | cons e es => simp at h
  | cons r rs ih =>
    cases es with
    | nil => simp at h
    | cons e es =>
      simp only [List.length_cons, Nat.succ.injEq] at h
      simp only [List.map_cons, setColumns, ih es h]

/-- Re-assigning the same Measurement and Value columns changes
nothing. -/
theorem setColumns_set_again (rows : List Row) (ms : List (Option String))
    (vs : List (Option ℚ)) :
    setColumns (setColumns rows ms vs) ms vs = setColumns rows ms vs := by
  induction rows generalizing ms vs with
  | nil => cases ms <;> cases vs <;> rfl
  | cons r rs ih =>
    cases ms with
    | nil => rfl
    | cons m ms =>
      cases vs with
      | nil => rfl
      | cons v vs => simp only [setColumns, ih ms vs]

/-- Lookup in a table built from a duplicate-free key list: the entry
found for a key is exactly the entry the key generates, when the
generator stamps each entry with its own key. -/
theorem find_filterMap_keyed (F : (String × String) → Option ((String × String) × ℚ))
    (hF : ∀ p e, F p = some e → e.1 = p) :
    ∀ l : List (String × String), l.Nodup → ∀ key : String × String,
      (l.filterMap F).find? (fun e => decide (e.1 = key)) =
        if key ∈ l then F key else none := by
  intro l
  induction l with
  | nil => intro _ key; simp
  | cons p rest ih =>
    intro hnd key
    have hnd2 : rest.Nodup := (List.nodup_cons.mp hnd).2
    have hp_notin : p ∉ rest := (List.nodup_cons.mp hnd).1
    cases hFp : F p with
    | none =>
      rw [List.filterMap_cons_none hFp, ih hnd2 key]
      by_cases hk : key = p
      · subst hk
        simp [hp_notin, hFp]
      · simp [List.mem_cons, hk]
    | some e =>
      have he1 : e.1 = p := hF p e hFp
      rw [List.filterMap_cons_some hFp]
      by_cases hk : key = p
      · subst hk
        rw [List.find?_cons_of_pos _ (by simp [he1])]
        simp [hFp]
      · rw [List.find?_cons_of_neg _
            (by simp only [he1, decide_eq_true_eq]; exact fun h => hk h.symm),
          ih hnd2 key]
        simp [List.mem_cons, hk]

/-- C1: extract_measurement returns the (kind, value) pair of the
first-registered pattern that matches anywhere in the message, the
value being the float conversion of that pattern's first non-absent
capture group, and no later pattern is consulted even if it would also
match. -/
theorem extract_first_match (pre post : List (String × Pattern)) (k : String)
    (p : Pattern) (msg : String) (gs : List (Option String)) (s : String) (v : ℚ)
    (hpre : ∀ q ∈ pre, q.2.search msg = none)
    (hm : p.search msg = some gs)
    (hg : firstNonNone gs = some s)
    (hv : float_of_string s = some v) :
    extract_measurement (pre ++ (k, p) :: post) msg = Except.ok (some k, some v) := by
  rw [extract_skip pre ((k, p) :: post) msg hpre]
  simp only [extract_measurement, hm, hg, hv]

/-- Witness for C1: in the registry wind, temp, hum the message
"Temperature: 23.5C" is matched by temp (capturing 23.5) and also by
hum, and extraction returns the temp result. -/
theorem extract_first_match_witness :
    extract_measurement
        ([("wind", windPattern)] ++ ("temp", tempPattern) :: [("hum", humPattern)])
        "Temperature: 23.5C" = Except.ok (some "temp", some ((47 : ℚ)/2)) :=
  extract_first_match [("wind", windPattern)] [("hum", humPattern)] "temp" tempPattern
    "Temperature: 23.5C" [some "23.5"] "23.5" ((47 : ℚ)/2)
    (by
      intro q hq
      rw [List.mem_singleton] at hq
      subst hq
      rfl)
    rfl rfl (by decide)

/-- C5: when no registered pattern matches the message, extraction
returns (None, None) without raising. -/
theorem extract_no_match (patterns : List (String × Pattern)) (msg : String)
    (h : ∀ q ∈ patterns, q.2.search msg = none) :
    extract_measurement patterns msg = Except.ok (none, none) := by
  have h2 := extract_skip patterns [] msg h
  rw [List.append_nil] at h2
  exact h2

/-- Witness for C5: the empty message matches no demo pattern and
extraction returns (None, None). -/
theorem extract_no_match_witness :
    extract_measurement [("temp", tempPattern), ("hum", humPattern)] "" =
      Except.ok (none, none) :=
  extract_no_match [("temp", tempPattern), ("hum", humPattern)] ""
    (by
      intro q hq
      rcases List.mem_cons.mp hq with h | h
      · subst h; rfl
      · rw [List.mem_singleton] at h
        subst h; rfl)

/-- C9: when the first matching pattern yields no non-absent capture
group (in particular when it has zero groups), extraction raises
StopIteration rather than returning or falling through to later
patterns. -/
theorem extract_zero_groups_stop (pre post : List (String × Pattern)) (k : String)
    (p : Pattern) (msg : String) (gs : List (Option String))
    (hpre : ∀ q ∈ pre, q.2.search msg = none)
    (hm : p.search msg = some gs)
    (hall : ∀ x ∈ gs, x = none) :
    extract_measurement (pre ++ (k, p) :: post) msg =
      Except.error PyError.stopIteration := by
  rw [extract_skip pre ((k, p) :: post) msg hpre]
  simp only [extract_measurement, hm, firstNonNone_eq_none gs hall]

/-- Witness for C9: a zero-group pattern matching the message "crash"
makes extraction raise StopIteration although a later pattern exists. -/
theorem extract_zero_groups_stop_witness :
    extract_measurement ([] ++ ("zero", zeroGroupPat) :: [("temp", tempPattern)])
      "crash" = Except.error PyError.stopIteration :=
  extract_zero_groups_stop [] [("temp", tempPattern)] "zero" zeroGroupPat "crash" []
    (by intro q hq; cases hq) rfl (by intro x hx; cases hx)

/-- C3: calculate_means groups rows by (station, kind), excludes rows
whose kind or value is absent, and the cell of the resulting table at
(station, kind) is the arithmetic mean of the values of exactly the
rows of that group, absent when the group is empty. -/
theorem calculate_means_cell (rows : List Row) (st kind : String)
    (tbl : List ((String × String) × ℚ))
    (h : calculate_means (some rows) = some tbl) :
    cell tbl st kind =
      if groupVals rows st kind = [] then none
      else some ((groupVals rows st kind).sum / ((groupVals rows st kind).length : ℚ)) := by
  have htbl : tbl = (groupKeys rows).filterMap (meanEntry rows) := by
    simpa [calculate_means] using h.symm
  subst htbl
  have hF : ∀ p e, meanEntry rows p = some e → e.1 = p := by
    intro p e he
    simp only [meanEntry] at he
    by_cases hvs : groupVals rows p.1 p.2 = []
    · rw [if_pos hvs] at he; cases he
    · rw [if_neg hvs] at he; cases he; rfl
  rw [cell, find_filterMap_keyed (meanEntry rows) hF (groupKeys rows)
    (List.nodup_dedup _) (st, kind)]
  by_cases hmem : (st, kind) ∈ groupKeys rows
  · rw [if_pos hmem]
    simp only [meanEntry]
    by_cases hvs : groupVals rows st kind = []
    · rw [if_pos hvs, if_pos hvs]; rfl
    · rw [if_neg hvs, if_neg hvs]; rfl
  · rw [if_neg hmem]
    have hempty : groupVals rows st kind = [] := by
      by_contra hne
      obtain ⟨v, hv⟩ : ∃ v, v ∈ groupVals rows st kind := by
        cases hq : groupVals rows st kind with
        | nil => exact absurd hq hne
        | cons a l => exact ⟨a, by simp [hq]⟩
      rw [groupVals, List.mem_filterMap] at hv
      obtain ⟨r, hr, hcond⟩ := hv
      by_cases hc : r.station = st ∧ r.measurement = some kind
      · apply hmem
        rw [groupKeys, List.mem_dedup, List.mem_filterMap]
        exact ⟨r, hr, by simp [hc.1, hc.2]⟩
      · rw [if_neg hc] at hcond; cases hcond
    rw [if_pos hempty]
    rfl

/-- Witness for C3: two S1 temp records with values 20 and 30 and one
S2 temp record with value 10 give S1.temp 25, S2.temp 10 and no S1.hum
cell. -/
theorem calculate_means_cell_witness :
    cell aggTbl "S1" "temp" = some 25 ∧ cell aggTbl "S2" "temp" = some 10 ∧
      cell aggTbl "S1" "hum" = none := by
  have h1 := calculate_means_cell aggRows "S1" "temp" aggTbl (by decide)
  have h2 := calculate_means_cell aggRows "S2" "temp" aggTbl (by decide)
  have h3 := calculate_means_cell aggRows "S1" "hum" aggTbl (by decide)
  refine ⟨?_, ?_, ?_⟩
  · rw [h1]; decide
  · rw [h2]; decide
  · rw [h3]; decide

/-- Counterexample to C2 as stated: with a registry whose bad pattern
captures non-numeric text, extraction raises a ValueError (a distinct
error, not a silent no-match), but the batch is aborted: processing the
three-record dataset raises instead of continuing past the offending
middle record. -/
theorem batch_abort_counterexample :
    extract_measurement demoBadPats "Temperature: oopsC" =
        Except.error PyError.valueError ∧
      process_messages demoBadPats (some [rowOk1, rowBad, rowOk2]) =
        Except.error PyError.valueError :=
  ⟨by decide, by decide⟩

/-- C2 amended: a non-numeric capture makes extract_measurement raise a
distinct ValueError, and process_messages does not recover: the first
record whose extraction raises aborts the whole batch with that error
and no annotated output is produced. -/
theorem extraction_error_aborts_batch (patterns : List (String × Pattern))
    (pre : List Row) (r : Row) (post : List Row) (e : PyError)
    (hpre : ∀ q ∈ pre, ∃ y, extract_measurement patterns q.message = Except.ok y)
    (hr : extract_measurement patterns r.message = Except.error e) :
    process_messages patterns (some (pre ++ r :: post)) = Except.error e := by
  simp only [process_messages,
    mapExtract_append_error patterns pre r post e hpre hr]

/-- Witness for C2 amended: the dataset good, bad, good aborts with the
ValueError of the bad record. -/
theorem extraction_error_aborts_batch_witness :
    process_messages demoBadPats (some ([rowOk1] ++ rowBad :: [rowOk2])) =
      Except.error PyError.valueError :=
  extraction_error_aborts_batch demoBadPats [rowOk1] rowBad [rowOk2]
    PyError.valueError
    (by
      intro q hq
      rw [List.mem_singleton] at hq
      subst hq
      exact ⟨(some "temp", some ((47 : ℚ)/2)), by decide⟩)
    (by decide)

/-- Counterexample to C4 as stated: on the empty input dataset the
batch processor does not emit an output with the same (zero) rows; the
unpacking of zero extraction results raises a ValueError. -/
theorem process_messages_empty_counterexample :
    process_messages demoPats (some ([] : List Row)) =
      Except.error PyError.valueError := by
  decide

/-- C4 amended: on every nonempty dataset all of whose rows extract
without raising, process_messages applies the extractor to every row in
input order and emits every row, unchanged in station and message and
in the same order, annotated with exactly its extraction result (absent
kind and value for unmatched rows); the empty dataset instead raises a
ValueError. -/
theorem process_messages_emits_all_rows (patterns : List (String × Pattern))
    (rows : List Row) (hne : rows ≠ [])
    (hok : ∀ r ∈ rows, ∃ y, extract_measurement patterns r.message = Except.ok y) :
    ∃ rows2, process_messages patterns (some rows) = Except.ok (some rows2) ∧
      rows2.map Row.station = rows.map Row.station ∧
      rows2.map Row.message = rows.map Row.message ∧
      mapExtract patterns rows = Except.ok (rows2.map fun r => (r.measurement, r.value)) := by
  obtain ⟨es, hes⟩ := mapExtract_ok_exists patterns rows hok
  have hlen := mapExtract_length patterns rows es hes
  have hlen1 : (es.map Prod.fst).length = rows.length := by simp [hlen]
  have hlen2 : (es.map Prod.snd).length = rows.length := by simp [hlen]
  refine ⟨setColumns rows (es.map Prod.fst) (es.map Prod.snd), ?_, ?_, ?_, ?_⟩
  · simp only [process_messages, hes]
    cases es with
    | nil =>
      exfalso
      apply hne
      rw [← List.length_eq_zero, ← hlen]
      rfl
    | cons e es2 => rfl
  · exact setColumns_station rows _ _ hlen1 hlen2
  · exact setColumns_message rows _ _ hlen1 hlen2
  · rw [setColumns_annots rows es hlen]
    exact hes

/-- Witness for C4 amended: the three-record demo dataset, one record
unmatched, is emitted whole and in order with its extraction results. -/
theorem process_messages_emits_all_rows_witness :
    ∃ rows2, process_messages demoPats (some wRows) = Except.ok (some rows2) ∧
      rows2.map Row.station = wRows.map Row.station ∧
      rows2.map Row.message = wRows.map Row.message ∧
      mapExtract demoPats wRows = Except.ok (rows2.map fun r => (r.measurement, r.value)) :=
  process_messages_emits_all_rows demoPats wRows (by decide)
    (by
      intro r hr
      simp only [wRows, List.mem_cons, List.not_mem_nil, or_false] at hr
      rcases hr with h | h | h
      · subst h; exact ⟨(some "temp", some ((47 : ℚ)/2)), by decide⟩
      · subst h; exact ⟨(none, none), by decide⟩
      · subst h; exact ⟨(some "hum", some (40 : ℚ)), by decide⟩)

/-- A successful row-wise extraction determines the output of
process_messages: every row is re-emitted with its extraction result in
the two new columns (the result list is nonempty whenever unpacking is
reached without raising). -/
theorem process_messages_of_mapExtract_ok (patterns : List (String × Pattern))
    (rows : List Row) (es : List (Option String × Option ℚ)) (hne : es ≠ [])
    (hes : mapExtract patterns rows = Except.ok es) :
    process_messages patterns (some rows) =
      Except.ok (some (setColumns rows (es.map Prod.fst) (es.map Prod.snd))) := by
  simp only [process_messages, hes]
  cases es with
  | nil => exact absurd rfl hne
  | cons e es2 => rfl

/-- Counterexample to C6 as stated: on a loaded dataset with zero rows
the pipeline raises the incidental ValueError of unpacking zero
extraction results, not a distinct empty-dataset error (no such error
kind exists in the code). -/
theorem empty_dataset_error_kind_counterexample :
    process demoPats (Except.ok []) = Except.error PyError.valueError ∧
      PyError.valueError ≠ PyError.emptyDataError :=
  ⟨rfl, by decide⟩

/-- C6 amended: a zero-row loaded dataset makes the pipeline raise a
ValueError from unpacking zero extraction results rather than silently
returning an empty summary, and only a pandas EmptyDataError raised by
pd.read_csv on an empty CSV source is re-raised unchanged by the
loader; no distinct EmptyDatasetError exists. -/
theorem empty_dataset_raises_value_error (patterns : List (String × Pattern)) :
    process patterns (Except.ok []) = Except.error PyError.valueError ∧
      read_from_web_CSV (Except.error PyError.emptyDataError) =
        Except.error PyError.emptyDataError :=
  ⟨rfl, rfl⟩

/-- Counterexample to C7 as stated: the constructor accepts a registry
whose only pattern has zero capture groups without signaling any
configuration error; the resulting processor stores the bad pattern,
which only fails later, at extraction time, with StopIteration. -/
theorem init_no_validation_counterexample :
    (WeatherDataProcessor.init badConfig).patterns = [("temp", zeroGroupPat)] ∧
      zeroGroupPat.search "crash" = some [] ∧
      extract_measurement (WeatherDataProcessor.init badConfig).patterns "crash" =
        Except.error PyError.stopIteration :=
  ⟨rfl, rfl, by decide⟩

/-- C7 amended: the constructor performs no validation of the supplied
patterns: every configuration is accepted verbatim, including one whose
patterns all match with zero capture groups, and such a registry fails
only at extraction time with StopIteration, never at construction
time. -/
theorem init_accepts_any_patterns (config_params : ConfigParams) (msg : String)
    (hne : config_params.regex_patterns ≠ [])
    (hz : ∀ q ∈ config_params.regex_patterns, q.2.search msg = some []) :
    (WeatherDataProcessor.init config_params).patterns = config_params.regex_patterns ∧
      extract_measurement (WeatherDataProcessor.init config_params).patterns msg =
        Except.error PyError.stopIteration := by
  refine ⟨rfl, ?_⟩
  show extract_measurement config_params.regex_patterns msg = _
  cases hp : config_params.regex_patterns with
  | nil => exact absurd hp hne
  | cons q rest =>
    have hq : q.2.search msg = some [] := hz q (by rw [hp]; exact List.mem_cons_self _ _)
    cases q with
    | mk key pat =>
      simp only [extract_measurement]
      rw [hq]
      rfl

/-- Witness for C7 amended: the configuration holding only the
zero-group pattern is accepted and extraction on the message "crash"
raises StopIteration. -/
theorem init_accepts_any_patterns_witness :
    (WeatherDataProcessor.init badConfig).patterns = badConfig.regex_patterns ∧
      extract_measurement (WeatherDataProcessor.init badConfig).patterns "crash" =
        Except.error PyError.stopIteration :=
  init_accepts_any_patterns badConfig "crash" (by intro h; exact List.noConfusion h)
    (by
      intro q hq
      simp only [badConfig, List.mem_singleton] at hq
      subst hq
      rfl)

/-- C8: the pipeline is a deterministic function of its input, and
re-running the batch processor and the aggregator on the already
annotated dataframe reproduces the same annotated dataframe and the
bit-identical summary table (re-extraction reads only the unchanged
Message column and overwrites the two columns with the same values). -/
theorem pipeline_rerun_identical (patterns : List (String × Pattern))
    (rows rows1 : List Row) (tbl : List ((String × String) × ℚ))
    (h1 : process_messages patterns (some rows) = Except.ok (some rows1))
    (h2 : calculate_means (some rows1) = some tbl) :
    process_messages patterns (some rows1) = Except.ok (some rows1) ∧
      calculate_means (some rows1) = some tbl := by
  refine ⟨?_, h2⟩
  cases hes : mapExtract patterns rows with
  | error e =>
    simp only [process_messages, hes] at h1
    exact Except.noConfusion h1
  | ok es =>
    simp only [process_messages, hes] at h1
    cases es with
    | nil =>
      rw [show unzip_unpack2 [] = (Except.error PyError.valueError :
        Except PyError (List (Option String) × List (Option ℚ))) from rfl] at h1
      cases h1
    | cons e es2 =>
      rw [show unzip_unpack2 (e :: es2) = Except.ok
        ((e :: es2).map Prod.fst, (e :: es2).map Prod.snd) from rfl] at h1
      simp only [Except.ok.injEq, Option.some.injEq] at h1
      subst h1
      have hlen := mapExtract_length patterns rows (e :: es2) hes
      have hmsg := setColumns_message rows ((e :: es2).map Prod.fst)
        ((e :: es2).map Prod.snd) (by simpa using hlen) (by simpa using hlen)
      have hmex : mapExtract patterns
          (setColumns rows ((e :: es2).map Prod.fst) ((e :: es2).map Prod.snd)) =
          Except.ok (e :: es2) := by
        rw [mapExtract_congr patterns _ rows hmsg]
        exact hes
      rw [process_messages_of_mapExtract_ok patterns _ (e :: es2) (by simp) hmex,
        setColumns_set_again]

/-- Witness for C8: re-running process_messages on the annotated demo
dataframe returns it unchanged and calculate_means returns the same
table. -/
theorem pipeline_rerun_identical_witness :
    process_messages demoPats (some wAnnotated) = Except.ok (some wAnnotated) ∧
      calculate_means (some wAnnotated) = some wTbl :=
  pipeline_rerun_identical demoPats wRows wAnnotated wTbl (by decide) (by decide)

/-- C10: called before any dataset is loaded (weather_df still None),
process_messages returns None without raising and calculate_means
returns None without raising; neither performs any processing. -/
theorem uninitialized_returns_none (patterns : List (String × Pattern)) :
    process_messages patterns none = Except.ok none ∧ calculate_means none = none :=
  ⟨rfl, rfl⟩

end Weather
